import Mathlib

/-!
Verification of the scroll-system navigation store
(`src/store/navigation.store.ts`, `src/types/index.ts`, `src/constants.ts`).

The store is a single synchronous state machine.  We embed its state shape
and every public action as pure Lean functions.  JavaScript numbers that
carry scroll metrics, progress values and strengths are modelled as `ℚ`;
timestamps (`Date.now()`) and array indices that may go negative are
modelled as `ℤ`.  The module-level mutable `lastNavigationTime` is carried
alongside the store state in a `Sys` record, and `Date.now()` becomes an
explicit `now : ℤ` argument to the actions that read it.
-/

namespace ScrollSystem

/-- `ScrollCapability` from `src/types/index.ts`: "none" | "internal". -/
inductive ScrollCapability where
  | none
  | internal
deriving DecidableEq, Repr

/-- `NavigationState` from `src/types/index.ts`: "locked" | "unlocked". -/
inductive NavigationState where
  | locked
  | unlocked
deriving DecidableEq, Repr

/-- `ViewType` from `src/types/index.ts`: "full" | "scroll-locked" | "controlled" | "nested". -/
inductive ViewType where
  | full
  | scrollLocked
  | controlled
  | nested
deriving DecidableEq, Repr

/-- `ViewMetrics` from `src/types/index.ts`. -/
structure ViewMetrics where
  scrollHeight : ℚ
  clientHeight : ℚ
  scrollTop : ℚ
deriving DecidableEq, Repr

/-- `UserIntentionType` from `src/types/index.ts`: "scroll" | "navigate". -/
inductive UserIntentionType where
  | scroll
  | navigate
deriving DecidableEq, Repr

/-- `UserDirection` from `src/types/index.ts`: "up" | "down" | "left" | "right". -/
inductive UserDirection where
  | up
  | down
  | left
  | right
deriving DecidableEq, Repr

/-- Origin tag of a `UserIntention`. -/
inductive IntentionOrigin where
  | wheel
  | touch
  | keyboard
  | programmatic
deriving DecidableEq, Repr

/-- `UserIntention` from `src/types/index.ts`. -/
structure UserIntention where
  type : UserIntentionType
  direction : UserDirection
  strength : ℚ
  origin : IntentionOrigin
deriving DecidableEq, Repr

/-- The slice of the `ViewConfig` union (`src/types/index.ts`) that the
navigation store reads: `id`, `type`, and - for controlled views - the
optional `allowGoBack` flag (`undefined` is `Option.none`).  The remaining
config fields (scroll direction, thresholds, snap points, ...) are never
read by `navigation.store.ts` and are omitted. -/
structure ViewConfig where
  id : String
  type : ViewType
  allowGoBack : Option Bool := Option.none
deriving DecidableEq, Repr

/-- `ViewState` from `src/types/index.ts`. -/
structure ViewState where
  id : String
  index : ℕ
  type : ViewType
  isActive : Bool
  isPreloaded : Bool
  capability : ScrollCapability
  navigation : NavigationState
  explicitLock : Option NavigationState
  progress : ℚ
  metrics : ViewMetrics
  config : ViewConfig
  activeSnapPointId : Option String
deriving DecidableEq, Repr

/-- `ScrollSystemState` from `src/types/index.ts`.  `lastNavigationDirection`
only ever holds "up" | "down" | null. -/
structure ScrollSystemState where
  views : List ViewState
  activeIndex : ℕ
  activeId : Option String
  totalViews : ℕ
  isInitialized : Bool
  isTransitioning : Bool
  isGlobalLocked : Bool
  isDragging : Bool
  globalProgress : ℚ
  isAutoScrolling : Bool
  isAutoScrollPaused : Bool
  infiniteScrollEnabled : Bool
  lastNavigationDirection : Option UserDirection
deriving DecidableEq, Repr

/-- `NAVIGATION_COOLDOWN` from `src/constants.ts` (500 ms). -/
def NAVIGATION_COOLDOWN : ℤ := 500

/-- `evaluateStateMachine` from `src/store/navigation.store.ts` (lines 26-42).
JavaScript `if (explicitLock) return explicitLock` is the non-null test,
since both "locked" and "unlocked" are truthy strings. -/
def evaluateStateMachine (capability : ScrollCapability) (progress : ℚ)
    (viewType : ViewType) (explicitLock : Option NavigationState) :
    NavigationState :=
  match explicitLock with
  | some lock => lock
  | Option.none =>
    if capability = ScrollCapability.none then NavigationState.unlocked
    else if viewType = ViewType.full then NavigationState.unlocked
    else if viewType = ViewType.nested then NavigationState.unlocked
    else if (99 / 100 : ℚ) ≤ progress then NavigationState.unlocked
    else NavigationState.locked

/-- `calculateCapability` from `src/store/navigation.store.ts` (lines 44-49). -/
def calculateCapability (metrics : ViewMetrics) : ScrollCapability :=
  if metrics.scrollHeight - metrics.clientHeight ≤ 1 then ScrollCapability.none
  else ScrollCapability.internal

/-- `calculateProgress` from `src/store/navigation.store.ts` (lines 51-55):
`Math.max(0, Math.min(1, scrollTop / maxScroll))`. -/
def calculateProgress (metrics : ViewMetrics) : ℚ :=
  let maxScroll := metrics.scrollHeight - metrics.clientHeight
  if maxScroll ≤ 1 then 1
  else max 0 (min 1 (metrics.scrollTop / maxScroll))

/-- `initialState` from `src/store/navigation.store.ts` (lines 61-78). -/
def initialState : ScrollSystemState where
  views := []
  activeIndex := 0
  activeId := Option.none
  totalViews := 0
  isInitialized := false
  isTransitioning := false
  isGlobalLocked := false
  isDragging := false
  globalProgress := 0
  isAutoScrolling := false
  isAutoScrollPaused := false
  infiniteScrollEnabled := false
  lastNavigationDirection := Option.none

/-- The store state together with the module-level mutable
`lastNavigationTime` (line 80 of `navigation.store.ts`). -/
structure Sys where
  state : ScrollSystemState
  lastNavigationTime : ℤ
deriving DecidableEq, Repr

/-- The system right after module load: `initialState` and
`lastNavigationTime = 0`. -/
def initSys : Sys where
  state := initialState
  lastNavigationTime := 0

/-- JavaScript array indexing `l[i]` with a possibly negative index:
out-of-range access yields `undefined` (`Option.none`). -/
def jsIdx? (l : List ViewState) (i : ℤ) : Option ViewState :=
  if i < 0 then Option.none else l[i.toNat]?

/-- JavaScript `Array.prototype.findIndex`: the index of the first element
satisfying the predicate (`Option.none` models the `-1` result). -/
def jsFindIndex? (p : ViewState → Bool) : List ViewState → Option ℕ
  | [] => Option.none
  | v :: rest => if p v then some 0 else (jsFindIndex? p rest).map (· + 1)

/-- Re-pack view indices densely: `.map((v, idx) => ({ ...v, index: idx }))`
inside `unregisterView`. -/
def reindexFrom (i : ℕ) : List ViewState → List ViewState
  | [] => []
  | v :: rest => { v with index := i } :: reindexFrom (i + 1) rest

/-- `.map((v, idx) => ...)` with the index available, used by `goToView`. -/
def mapIdxGo (f : ℕ → ViewState → ViewState) : ℕ → List ViewState → List ViewState
  | _, [] => []
  | i, v :: rest => f i v :: mapIdxGo f (i + 1) rest

/-- `initialize` from `navigation.store.ts` (lines 86-95). -/
def initStore (s : ScrollSystemState) : ScrollSystemState :=
  if 0 < s.views.length then
    { s with
      isInitialized := true
      activeId := match s.views[0]? with
        | some v => some v.id
        | Option.none => Option.none
      activeIndex := 0 }
  else s

/-- `registerView` from `navigation.store.ts` (lines 97-125). -/
def registerView (config : ViewConfig) (s : ScrollSystemState) : ScrollSystemState :=
  if s.views.any (fun v => v.id = config.id) then s
  else
    let newIndex := s.views.length
    let newView : ViewState :=
      { id := config.id
        index := newIndex
        type := config.type
        isActive := newIndex = 0
        isPreloaded := newIndex ≤ 1
        capability := ScrollCapability.none
        navigation := NavigationState.unlocked
        explicitLock := Option.none
        progress := 0
        metrics := { scrollHeight := 0, clientHeight := 0, scrollTop := 0 }
        config := config
        activeSnapPointId := Option.none }
    let newViews := s.views ++ [newView]
    { s with
      views := newViews
      totalViews := newViews.length
      activeId := some (s.activeId.getD newView.id) }

/-- `unregisterView` from `navigation.store.ts` (lines 127-142).
`newActiveIndex = Math.min(activeIndex, newViews.length - 1)` may be `-1`;
`activeId` is read at that raw index while `activeIndex` is clamped with
`Math.max(0, ...)`. -/
def unregisterView (id : String) (s : ScrollSystemState) : ScrollSystemState :=
  let newViews := reindexFrom 0 (s.views.filter (fun v => ¬ v.id = id))
  let newActiveIndex : ℤ := min (s.activeIndex : ℤ) ((newViews.length : ℤ) - 1)
  { s with
    views := newViews
    totalViews := newViews.length
    activeIndex := (max 0 newActiveIndex).toNat
    activeId := match jsIdx? newViews newActiveIndex with
      | some v => some v.id
      | Option.none => Option.none }

/-- `updateViewMetrics` from `navigation.store.ts` (lines 144-179).  The
inner `match` on the lookup is total-function bookkeeping: `findIndex`
only returns indices inside the array. -/
def updateViewMetrics (s : ScrollSystemState) (id : String) (metrics : ViewMetrics) :
    ScrollSystemState :=
  match jsFindIndex? (fun v => v.id = id) s.views with
  | Option.none => s
  | some viewIndex =>
    match s.views[viewIndex]? with
    | Option.none => s
    | some view =>
      let capability := calculateCapability metrics
      let progress := calculateProgress metrics
      let navigation := evaluateStateMachine capability progress view.type view.explicitLock
      if view.capability = capability ∧ |view.progress - progress| < 1 / 10000 ∧
          view.navigation = navigation then s
      else
        let newViews := s.views.set viewIndex
          { view with
            metrics := metrics
            capability := capability
            progress := progress
            navigation := navigation }
        let viewProgress : ℚ := match newViews[s.activeIndex]? with
          | some activeView => activeView.progress
          | Option.none => 0
        { s with
          views := newViews
          globalProgress := ((s.activeIndex : ℚ) + viewProgress) / (s.totalViews : ℚ) }

/-- Target-index resolution inside `goToView` (lines 259-267): a string id
is looked up with `findIndex` (yielding `-1` when absent), then the
infinite-scroll wrap is applied sequentially. -/
def resolveTarget (s : ScrollSystemState) (indexOrId : ℤ ⊕ String) : ℤ :=
  let t0 : ℤ := match indexOrId with
    | Sum.inl n => n
    | Sum.inr id =>
      match jsFindIndex? (fun v => v.id = id) s.views with
      | some i => (i : ℤ)
      | Option.none => -1
  if s.infiniteScrollEnabled then
    let t1 := if t0 < 0 then (s.totalViews : ℤ) - 1 else t0
    if (s.totalViews : ℤ) ≤ t1 then 0 else t1
  else t0

/-- The state mutation of `goToView` (lines 259-299), after the cooldown
gate has been passed. -/
def goToViewState (s : ScrollSystemState) (indexOrId : ℤ ⊕ String) : ScrollSystemState :=
  let targetIndex := resolveTarget s indexOrId
  if targetIndex < 0 ∨ (s.totalViews : ℤ) ≤ targetIndex then s
  else if targetIndex = (s.activeIndex : ℤ) then s
  else
    let navigationDirection : UserDirection :=
      if (s.activeIndex : ℤ) < targetIndex then UserDirection.down else UserDirection.up
    let newViews := mapIdxGo (fun idx v =>
      let isAdjacent := |(idx : ℤ) - targetIndex| ≤ 1 ∨
        (s.infiniteScrollEnabled ∧
          ((targetIndex = 0 ∧ (idx : ℤ) = (s.totalViews : ℤ) - 1) ∨
           (targetIndex = (s.totalViews : ℤ) - 1 ∧ (idx : ℤ) = 0)))
      { v with
        isActive := (idx : ℤ) = targetIndex
        isPreloaded := isAdjacent ∨ (idx : ℤ) = targetIndex }) 0 s.views
    { s with
      isTransitioning := true
      activeIndex := targetIndex.toNat
      activeId := match jsIdx? newViews targetIndex with
        | some v => some v.id
        | Option.none => Option.none
      views := newViews
      lastNavigationDirection := some navigationDirection }

/-- `goToView` from `navigation.store.ts` (lines 253-300): calls inside the
cooldown window are dropped whole; otherwise `lastNavigationTime` is
advanced to `now` before the target is resolved and validated. -/
def goToView (sys : Sys) (now : ℤ) (indexOrId : ℤ ⊕ String) : Sys :=
  if now - sys.lastNavigationTime < NAVIGATION_COOLDOWN then sys
  else
    { state := goToViewState sys.state indexOrId
      lastNavigationTime := now }

/-- `processIntention` from `navigation.store.ts` (lines 181-235).  Returns
the boolean result paired with the system after the call. -/
def processIntention (sys : Sys) (now : ℤ) (intention : UserIntention) : Bool × Sys :=
  let state := sys.state
  if state.isTransitioning ∨ state.isGlobalLocked then (false, sys)
  else
    match state.views[state.activeIndex]? with
    | Option.none => (false, sys)
    | some activeView =>
      match intention.type, intention.direction with
      | UserIntentionType.navigate, UserDirection.down =>
        if activeView.navigation = NavigationState.locked then (false, sys)
        else if (state.totalViews : ℤ) - 1 ≤ (state.activeIndex : ℤ) then
          if state.infiniteScrollEnabled then
            (true, goToView sys now (Sum.inl 0))
          else (false, sys)
        else (true, goToView sys now (Sum.inl ((state.activeIndex : ℤ) + 1)))
      | UserIntentionType.navigate, UserDirection.up =>
        let isAtTop := activeView.metrics.scrollTop ≤ 1
        if activeView.capability = ScrollCapability.internal ∧ ¬ isAtTop then (false, sys)
        else
          let proceed : Bool × Sys :=
            if (state.activeIndex : ℤ) ≤ 0 then
              if state.infiniteScrollEnabled then
                (true, goToView sys now (Sum.inl ((state.totalViews : ℤ) - 1)))
              else (false, sys)
            else (true, goToView sys now (Sum.inl ((state.activeIndex : ℤ) - 1)))
          match activeView.type with
          | ViewType.controlled =>
            if activeView.config.allowGoBack = some false then (false, sys)
            else proceed
          | _ =>
            if activeView.explicitLock = some NavigationState.locked then (false, sys)
            else proceed
      | _, _ => (false, sys)

/-- `goToNext` from `navigation.store.ts` (lines 237-243). -/
def goToNext (sys : Sys) (now : ℤ) : Sys :=
  let s := sys.state
  let nextIndex : ℤ :=
    if s.infiniteScrollEnabled ∧ (s.totalViews : ℤ) - 1 ≤ (s.activeIndex : ℤ) then 0
    else (s.activeIndex : ℤ) + 1
  goToView sys now (Sum.inl nextIndex)

/-- `goToPrevious` from `navigation.store.ts` (lines 245-251). -/
def goToPrevious (sys : Sys) (now : ℤ) : Sys :=
  let s := sys.state
  let prevIndex : ℤ :=
    if s.infiniteScrollEnabled ∧ (s.activeIndex : ℤ) ≤ 0 then (s.totalViews : ℤ) - 1
    else (s.activeIndex : ℤ) - 1
  goToView sys now (Sum.inl prevIndex)

/-- `setViewExplicitLock` from `navigation.store.ts` (lines 302-315). -/
def setViewExplicitLock (s : ScrollSystemState) (id : String)
    (lock : Option NavigationState) : ScrollSystemState :=
  match jsFindIndex? (fun v => v.id = id) s.views with
  | Option.none => s
  | some index =>
    match s.views[index]? with
    | Option.none => s
    | some view =>
      let navigation := evaluateStateMachine view.capability view.progress view.type lock
      { s with
        views := s.views.set index { view with explicitLock := lock, navigation := navigation } }

/-- `setGlobalLock` (line 317). -/
def setGlobalLock (locked : Bool) (s : ScrollSystemState) : ScrollSystemState :=
  { s with isGlobalLocked := locked }

/-- `setDragging` (line 319). -/
def setDragging (dragging : Bool) (s : ScrollSystemState) : ScrollSystemState :=
  { s with isDragging := dragging }

/-- `startTransition` (line 321). -/
def startTransition (s : ScrollSystemState) : ScrollSystemState :=
  { s with isTransitioning := true }

/-- `endTransition` (line 322). -/
def endTransition (s : ScrollSystemState) : ScrollSystemState :=
  { s with isTransitioning := false }

/-- `setAutoScrolling` (line 325). -/
def setAutoScrolling (enabled : Bool) (s : ScrollSystemState) : ScrollSystemState :=
  { s with isAutoScrolling := enabled }

/-- `setAutoScrollPaused` (line 326). -/
def setAutoScrollPaused (paused : Bool) (s : ScrollSystemState) : ScrollSystemState :=
  { s with isAutoScrollPaused := paused }

/-- `setInfiniteScrollEnabled` (line 329). -/
def setInfiniteScrollEnabled (enabled : Bool) (s : ScrollSystemState) : ScrollSystemState :=
  { s with infiniteScrollEnabled := enabled }

/-- `setViewPreloaded` from `navigation.store.ts` (lines 332-342). -/
def setViewPreloaded (s : ScrollSystemState) (id : String) (preloaded : Bool) :
    ScrollSystemState :=
  match jsFindIndex? (fun v => v.id = id) s.views with
  | Option.none => s
  | some index =>
    match s.views[index]? with
    | Option.none => s
    | some view =>
      { s with views := s.views.set index { view with isPreloaded := preloaded } }

/-- `setActiveSnapPoint` from `navigation.store.ts` (lines 345-355). -/
def setActiveSnapPoint (s : ScrollSystemState) (viewId : String)
    (snapPointId : Option String) : ScrollSystemState :=
  match jsFindIndex? (fun v => v.id = viewId) s.views with
  | Option.none => s
  | some index =>
    match s.views[index]? with
    | Option.none => s
    | some view =>
      { s with views := s.views.set index { view with activeSnapPointId := snapPointId } }

/-- `resetNavigationCooldown` from `navigation.store.ts` (lines 357-359). -/
def resetNavigationCooldown (sys : Sys) : Sys :=
  { sys with lastNavigationTime := 0 }

/-- Lift a pure state action to the `Sys` level (it does not touch
`lastNavigationTime`). -/
def liftS (f : ScrollSystemState → ScrollSystemState) (sys : Sys) : Sys :=
  { sys with state := f sys.state }

/-- One public store operation, with the `Date.now()` reading made explicit
for the actions that consult the navigation cooldown. -/
inductive Op where
  | initStore
  | registerView (config : ViewConfig)
  | unregisterView (id : String)
  | updateViewMetrics (id : String) (metrics : ViewMetrics)
  | processIntention (now : ℤ) (intention : UserIntention)
  | goToNext (now : ℤ)
  | goToPrevious (now : ℤ)
  | goToView (now : ℤ) (indexOrId : ℤ ⊕ String)
  | setViewExplicitLock (id : String) (lock : Option NavigationState)
  | setGlobalLock (locked : Bool)
  | setDragging (dragging : Bool)
  | startTransition
  | endTransition
  | setAutoScrolling (enabled : Bool)
  | setAutoScrollPaused (paused : Bool)
  | setInfiniteScrollEnabled (enabled : Bool)
  | setViewPreloaded (id : String) (preloaded : Bool)
  | setActiveSnapPoint (viewId : String) (snapPointId : Option String)
  | resetNavigationCooldown

/-- Apply one store operation to the system. -/
def applyOp (sys : Sys) : Op → Sys
  | Op.initStore => liftS initStore sys
  | Op.registerView c => liftS (registerView c) sys
  | Op.unregisterView id => liftS (unregisterView id) sys
  | Op.updateViewMetrics id m => liftS (fun s => updateViewMetrics s id m) sys
  | Op.processIntention now i => (processIntention sys now i).2
  | Op.goToNext now => goToNext sys now
  | Op.goToPrevious now => goToPrevious sys now
  | Op.goToView now t => goToView sys now t
  | Op.setViewExplicitLock id l => liftS (fun s => setViewExplicitLock s id l) sys
  | Op.setGlobalLock b => liftS (setGlobalLock b) sys
  | Op.setDragging b => liftS (setDragging b) sys
  | Op.startTransition => liftS startTransition sys
  | Op.endTransition => liftS endTransition sys
  | Op.setAutoScrolling b => liftS (setAutoScrolling b) sys
  | Op.setAutoScrollPaused b => liftS (setAutoScrollPaused b) sys
  | Op.setInfiniteScrollEnabled b => liftS (setInfiniteScrollEnabled b) sys
  | Op.setViewPreloaded id b => liftS (fun s => setViewPreloaded s id b) sys
  | Op.setActiveSnapPoint id sp => liftS (fun s => setActiveSnapPoint s id sp) sys
  | Op.resetNavigationCooldown => resetNavigationCooldown sys

/-- States reachable from the freshly loaded module by any sequence of
public store operations. -/
inductive Reachable : Sys → Prop where
  | init : Reachable initSys
  | step {sys : Sys} (op : Op) : Reachable sys → Reachable (applyOp sys op)

/-- A `full`-type view config with the given id. -/
def fullCfg (id : String) : ViewConfig := { id := id, type := ViewType.full }

/-- A navigate-down intention (wheel origin, strength 1). -/
def downNavIntention : UserIntention :=
  { type := UserIntentionType.navigate, direction := UserDirection.down,
    strength := 1, origin := IntentionOrigin.wheel }

/-- A navigate-up intention (wheel origin, strength 1). -/
def upNavIntention : UserIntention :=
  { type := UserIntentionType.navigate, direction := UserDirection.up,
    strength := 1, origin := IntentionOrigin.wheel }

/-- Three registered `full` views (ids "a","b","c") followed by
`initialize()`: the starting point of Scenario A. -/
def scenarioABase : Sys :=
  applyOp (applyOp (applyOp (applyOp initSys
    (Op.registerView (fullCfg "a")))
    (Op.registerView (fullCfg "b")))
    (Op.registerView (fullCfg "c")))
    Op.initStore

/-- One Scenario-A step as the claim words it: reset the navigation
cooldown, then fire a `down` intention (at time 1000 ms). -/
def scenarioAStep (sys : Sys) : Bool × Sys :=
  processIntention (resetNavigationCooldown sys) 1000 downNavIntention

/-- One Scenario-A step as the repository's own integration tests perform
it: reset the cooldown, fire the intention, then let the rendering layer
call `endTransition()`. -/
def scenarioAStepEnd (sys : Sys) : Bool × Sys :=
  let r := processIntention (resetNavigationCooldown sys) 1000 downNavIntention
  (r.1, liftS endTransition r.2)

/-- The evaluator precedence exactly as the spec words it (spec section 4.1),
for comparison with the source `evaluateStateMachine`: explicit lock
verbatim, else capability `none` unlocks, else type `full` or `nested`
unlocks, else `progress >= 0.99` unlocks, else locked. -/
def evaluateNavigationStateSpec (capability : ScrollCapability) (progress : ℚ)
    (viewType : ViewType) (explicitLock : Option NavigationState) :
    NavigationState :=
  match explicitLock with
  | some lock => lock
  | Option.none =>
    if capability = ScrollCapability.none then NavigationState.unlocked
    else if viewType = ViewType.full ∨ viewType = ViewType.nested then
      NavigationState.unlocked
    else if progress ≥ 99 / 100 then NavigationState.unlocked
    else NavigationState.locked

/-- `(activeIndex + activeView.progress) / totalViews`, the equation the
spec's data model gives for `globalProgress` (and the expression
`updateViewMetrics` itself computes). -/
def globalProgressFormula (s : ScrollSystemState) : ℚ :=
  ((s.activeIndex : ℚ) +
    (match s.views[s.activeIndex]? with
     | some v => v.progress
     | Option.none => 0)) / (s.totalViews : ℚ)

/-- Step 1 of Scenario A taken literally (cooldown reset only). -/
def scenarioALit1 : Bool × Sys := scenarioAStep scenarioABase

/-- Step 2 of Scenario A taken literally. -/
def scenarioALit2 : Bool × Sys := scenarioAStep scenarioALit1.2

/-- Step 3 of Scenario A taken literally. -/
def scenarioALit3 : Bool × Sys := scenarioAStep scenarioALit2.2

/-- Step 4 of Scenario A taken literally. -/
def scenarioALit4 : Bool × Sys := scenarioAStep scenarioALit3.2

/-- Step 1 of Scenario A with `endTransition` after the intention. -/
def scenarioAEnd1 : Bool × Sys := scenarioAStepEnd scenarioABase

/-- Step 2 of Scenario A with `endTransition` after the intention. -/
def scenarioAEnd2 : Bool × Sys := scenarioAStepEnd scenarioAEnd1.2

/-- Step 3 of Scenario A with `endTransition` after the intention. -/
def scenarioAEnd3 : Bool × Sys := scenarioAStepEnd scenarioAEnd2.2

/-- Step 4 of Scenario A with `endTransition` after the intention. -/
def scenarioAEnd4 : Bool × Sys := scenarioAStepEnd scenarioAEnd3.2

/-- The system of Scenario A after one successful `down` navigation (at
time 1000 ms) and the rendering layer's `endTransition()`. -/
def cooldownDropBase : Sys :=
  liftS endTransition (processIntention scenarioABase 1000 downNavIntention).2

/-- Decision value of `processIntention` (`navigation.store.ts` lines
181-235) with the navigation call stripped out: `true` exactly on the
branches where the source calls `goToView` and returns `true`.  This is
the value `processIntention` reports, independent of the cooldown. -/
def intentionAccepted (state : ScrollSystemState) (intention : UserIntention) : Bool :=
  if state.isTransitioning ∨ state.isGlobalLocked then false
  else
    match state.views[state.activeIndex]? with
    | Option.none => false
    | some activeView =>
      match intention.type, intention.direction with
      | UserIntentionType.navigate, UserDirection.down =>
        if activeView.navigation = NavigationState.locked then false
        else if (state.totalViews : ℤ) - 1 ≤ (state.activeIndex : ℤ) then
          if state.infiniteScrollEnabled then true else false
        else true
      | UserIntentionType.navigate, UserDirection.up =>
        let isAtTop := activeView.metrics.scrollTop ≤ 1
        if activeView.capability = ScrollCapability.internal ∧ ¬ isAtTop then false
        else
          let proceed : Bool :=
            if (state.activeIndex : ℤ) ≤ 0 then
              if state.infiniteScrollEnabled then true else false
            else true
          match activeView.type with
          | ViewType.controlled =>
            if activeView.config.allowGoBack = some false then false
            else proceed
          | _ =>
            if activeView.explicitLock = some NavigationState.locked then false
            else proceed
      | _, _ => false

/-- The store after `registerView("a")`, `registerView("b")`,
`unregisterView("a")`. -/
def unregisterBugSys : Sys :=
  applyOp (applyOp (applyOp initSys
    (Op.registerView (fullCfg "a")))
    (Op.registerView (fullCfg "b")))
    (Op.unregisterView "a")

/-- Two `full` views, then `goToView(1)` at time 1000 ms (cooldown open). -/
def staleProgressSys : Sys :=
  goToView (applyOp (applyOp initSys
    (Op.registerView (fullCfg "a")))
    (Op.registerView (fullCfg "b"))) 1000 (Sum.inl 1)

/-- A `goToView` target that resolves to a rejected navigation: out of
bounds (after any infinite-scroll wrap), unresolvable, or equal to the
current `activeIndex`. -/
def goToViewNoOpTarget (s : ScrollSystemState) (indexOrId : ℤ ⊕ String) : Prop :=
  resolveTarget s indexOrId < 0 ∨
  (s.totalViews : ℤ) ≤ resolveTarget s indexOrId ∨
  resolveTarget s indexOrId = (s.activeIndex : ℤ)

/-- Bookkeeping facts that hold in every reachable store state:
`totalViews` mirrors the list length, `activeIndex` is in range (0 on an
empty registry), every view's `progress` lies in `[0,1]`, and a non-null
`explicitLock` is always mirrored verbatim in `navigation`. -/
structure StoreInv (s : ScrollSystemState) : Prop where
  total_eq : s.totalViews = s.views.length
  active_empty : s.views = [] → s.activeIndex = 0
  active_lt : s.views ≠ [] → s.activeIndex < s.views.length
  progress_bounds : ∀ v ∈ s.views, 0 ≤ v.progress ∧ v.progress ≤ 1
  lock_nav : ∀ v ∈ s.views, ∀ l, v.explicitLock = some l → v.navigation = l

/-- A `controlled` view config used for the lock scenarios. -/
def gateCfg : ViewConfig := { id := "gate", type := ViewType.controlled }

/-- One registered `controlled` view, explicitly locked by the app. -/
def lockedViewSys : Sys :=
  applyOp (applyOp initSys (Op.registerView gateCfg))
    (Op.setViewExplicitLock "gate" (some NavigationState.locked))

/-- The view literal produced by the two operations of `lockedViewSys`. -/
def lockedView : ViewState :=
  { id := "gate", index := 0, type := ViewType.controlled, isActive := true,
    isPreloaded := true, capability := ScrollCapability.none,
    navigation := NavigationState.locked,
    explicitLock := some NavigationState.locked, progress := 0,
    metrics := { scrollHeight := 0, clientHeight := 0, scrollTop := 0 },
    config := gateCfg, activeSnapPointId := Option.none }

/-- The updated view record written by `updateViewMetrics`
(`navigation.store.ts` lines 163-170). -/
def appliedView (view : ViewState) (m : ViewMetrics) : ViewState :=
  { view with
    metrics := m
    capability := calculateCapability m
    progress := calculateProgress m
    navigation := evaluateStateMachine (calculateCapability m) (calculateProgress m)
      view.type view.explicitLock }

/-- A `scroll-locked` view config for the globalProgress witness. -/
def c6Cfg : ViewConfig := { id := "doc", type := ViewType.scrollLocked }

/-- One registered `scroll-locked` view. -/
def c6Base : Sys := applyOp initSys (Op.registerView c6Cfg)

/-- Metrics with no overflow (`maxScroll = 0`), so `progress` becomes 1. -/
def c6Metrics : ViewMetrics := { scrollHeight := 800, clientHeight := 800, scrollTop := 37 }

/-- The view literal registered by `c6Base`. -/
def c6View : ViewState :=
  { id := "doc", index := 0, type := ViewType.scrollLocked, isActive := true,
    isPreloaded := true, capability := ScrollCapability.none,
    navigation := NavigationState.unlocked, explicitLock := Option.none, progress := 0,
    metrics := { scrollHeight := 0, clientHeight := 0, scrollTop := 0 },
    config := c6Cfg, activeSnapPointId := Option.none }

/-- The full store state of `c6Base`, written out. -/
def c6Snapshot : ScrollSystemState where
  views := [c6View]
  activeIndex := 0
  activeId := some "doc"
  totalViews := 1
  isInitialized := false
  isTransitioning := false
  isGlobalLocked := false
  isDragging := false
  globalProgress := 0
  isAutoScrolling := false
  isAutoScrollPaused := false
  infiniteScrollEnabled := false
  lastNavigationDirection := Option.none

/-- The `controlled` view config of Scenario D: `allowGoBack = false`. -/
def ctlCfg : ViewConfig :=
  { id := "mid", type := ViewType.controlled, allowGoBack := some false }

/-- Scenario D: a `controlled` view with `allowGoBack = false` entered at
index 1 of 3 (transition completed, cooldown open again at 2000 ms). -/
def scenarioDSys : Sys :=
  liftS endTransition (goToView (applyOp (applyOp (applyOp (applyOp initSys
    (Op.registerView (fullCfg "a")))
    (Op.registerView ctlCfg))
    (Op.registerView (fullCfg "z")))
    Op.initStore) 1000 (Sum.inl 1))

/-- The active (controlled) view of `scenarioDSys`. -/
def scenarioDView : ViewState :=
  { id := "mid", index := 1, type := ViewType.controlled, isActive := true,
    isPreloaded := true, capability := ScrollCapability.none,
    navigation := NavigationState.unlocked, explicitLock := Option.none, progress := 0,
    metrics := { scrollHeight := 0, clientHeight := 0, scrollTop := 0 },
    config := ctlCfg, activeSnapPointId := Option.none }

/-! ### Theorems -/

theorem evaluateStateMachine_some (c : ScrollCapability) (p : ℚ) (t : ViewType)
    (l : NavigationState) : evaluateStateMachine c p t (some l) = l := rfl

theorem calculateProgress_nonneg (m : ViewMetrics) : 0 ≤ calculateProgress m := by
  simp only [calculateProgress]
  split
  · norm_num
  · exact le_max_left _ _

theorem calculateProgress_le_one (m : ViewMetrics) : calculateProgress m ≤ 1 := by
  simp only [calculateProgress]
  split
  · norm_num
  · exact max_le (by norm_num) (min_le_left _ _)

/-- C3.  `evaluateStateMachine` follows exactly the specified precedence on
every input: a non-null `explicitLock` is returned verbatim; otherwise
capability `none` yields `unlocked`; otherwise view type `full` or `nested`
yields `unlocked`; otherwise `progress >= 0.99` yields `unlocked`;
otherwise `locked`.  Explicit intent dominates computed physical state. -/
theorem evaluateStateMachine_follows_spec_precedence :
    ∀ (c : ScrollCapability) (p : ℚ) (t : ViewType)
      (el : Option NavigationState),
      evaluateStateMachine c p t el = evaluateNavigationStateSpec c p t el := by
  intro c p t el
  cases el with
  | some l => rfl
  | none =>
    cases c with
    | none => rfl
    | internal =>
      cases t <;>
        simp [evaluateStateMachine, evaluateNavigationStateSpec, ge_iff_le]

/-- C8.  `calculateProgress` returns 1 when `scrollHeight - clientHeight <= 1`
and otherwise clamps `scrollTop / (scrollHeight - clientHeight)` to `[0,1]`;
in particular 0 at the top of a 2000/800 view, 1 at `scrollTop = 1200`, and
1 without overflow regardless of `scrollTop`. -/
theorem calculateProgress_spec :
    (∀ m : ViewMetrics, calculateProgress m =
      if m.scrollHeight - m.clientHeight ≤ 1 then 1
      else min 1 (max 0 (m.scrollTop / (m.scrollHeight - m.clientHeight)))) ∧
    calculateProgress { scrollHeight := 2000, clientHeight := 800, scrollTop := 0 } = 0 ∧
    calculateProgress { scrollHeight := 2000, clientHeight := 800, scrollTop := 1200 } = 1 ∧
    (∀ st : ℚ, calculateProgress
      { scrollHeight := 800, clientHeight := 800, scrollTop := st } = 1) := by
  refine ⟨?_, by norm_num [calculateProgress], by norm_num [calculateProgress], ?_⟩
  · intro m
    simp only [calculateProgress]
    split
    · rfl
    · rw [max_min_distrib_left, max_eq_right zero_le_one]
  · intro st
    norm_num [calculateProgress]

/-- C4 (counterexample).  Scenario A executed exactly as claimed - 3 `full`
views, `initialize`, then 4 consecutive `down` intentions with only the
navigation cooldown reset before each - stalls at `activeIndex = 1`: the
first navigation sets `isTransitioning = true`, nothing clears it, so the
2nd intention is already rejected and the run never reaches index 2. -/
theorem scenarioA_literal_stalls_at_one :
    scenarioALit1.1 = true ∧ scenarioALit2.1 = false ∧
    scenarioALit4.2.state.activeIndex = 1 ∧
    scenarioALit4.2.state.activeIndex ≠ 2 := by
  refine ⟨by decide, by decide, by decide, by decide⟩

/-- C4 (amended).  Scenario A holds once each intention is followed by the
rendering layer's `endTransition()` call (exactly what the repository's own
integration tests do): the first two `down` intentions navigate, the run
ends at `activeIndex = 2`, and the 4th intention is rejected with
`processIntention` returning `false`. -/
theorem scenarioA_with_endTransition :
    scenarioAEnd1.1 = true ∧ scenarioAEnd2.1 = true ∧
    scenarioAEnd4.2.state.activeIndex = 2 ∧
    scenarioAEnd4.1 = false := by
  refine ⟨by decide, by decide, by decide, by decide⟩

/-- C1 (counterexample).  One millisecond after a successful navigation, a
`down` intention passes every gating check, its inner `goToView` is
silently dropped by the 500 ms navigation cooldown - the system is
returned completely unchanged - and yet `processIntention` reports `true`:
the return value does not track whether a navigation actually happened. -/
theorem processIntention_true_without_navigation :
    processIntention cooldownDropBase 1001 downNavIntention =
      (true, cooldownDropBase) ∧
    cooldownDropBase.state.activeIndex = 1 := by
  refine ⟨by decide, by decide⟩

/-- C1 (amended).  `processIntention` returns `true` iff the intention
passes all its gating and boundary checks and a `goToView` call is issued;
the return value is computed before and independently of the cooldown, so
a reported `true` does not imply the store state actually changed. -/
theorem processIntention_fst_eq_intentionAccepted :
    ∀ (sys : Sys) (now : ℤ) (intention : UserIntention),
      (processIntention sys now intention).1 = intentionAccepted sys.state intention := by
  intro sys now intention
  simp only [processIntention, intentionAccepted]
  repeat' split
  all_goals rfl

/-- C2 (code bug).  `unregisterView` re-indexes the surviving views and
clamps `activeIndex`, but never recomputes the `isActive` flags: after
registering "a" and "b" and unregistering "a", one view remains and
`activeIndex = 0`, yet no view has `isActive = true` - `views[activeIndex]`
is not active, violating the spec's exactly-one-active invariant. -/
theorem unregisterView_breaks_isActive_invariant :
    unregisterBugSys.state.totalViews = 1 ∧
    unregisterBugSys.state.activeIndex = 0 ∧
    unregisterBugSys.state.views.all (fun v => !v.isActive) = true := by
  refine ⟨by decide, by decide, by decide⟩

/-- C6 (counterexample).  `goToView` updates `activeIndex` but does not
recompute `globalProgress`: after registering two `full` views and
navigating to index 1, `globalProgress` is still 0 while the formula
`(activeIndex + activeView.progress) / totalViews` gives `1/2`. -/
theorem goToView_leaves_globalProgress_stale :
    staleProgressSys.state.activeIndex = 1 ∧
    staleProgressSys.state.globalProgress = 0 ∧
    globalProgressFormula staleProgressSys.state = 1 / 2 ∧
    staleProgressSys.state.globalProgress ≠ globalProgressFormula staleProgressSys.state := by
  have hform : globalProgressFormula staleProgressSys.state = 1 / 2 := by
    have h1 : staleProgressSys.state.activeIndex = 1 := by decide
    have h2 : staleProgressSys.state.totalViews = 2 := by decide
    have h3 : (staleProgressSys.state.views[staleProgressSys.state.activeIndex]?).map
        ViewState.progress = some 0 := by decide
    unfold globalProgressFormula
    rcases hx : staleProgressSys.state.views[staleProgressSys.state.activeIndex]? with _ | v
    · rw [hx] at h3; simp at h3
    · rw [hx] at h3
      simp only [Option.map_some', Option.some.injEq] at h3
      rw [h1, h2]
      simp only [h3]
      norm_num
  refine ⟨by decide, by decide, hform, ?_⟩
  have h0 : staleProgressSys.state.globalProgress = 0 := by decide
  rw [h0, hform]
  norm_num

/-- C10.  A `goToView` call outside the cooldown window advances
`lastNavigationTime` to `now` before the target is validated: even when
the target is rejected as a no-op (store state unchanged), a new cooldown
window starts, and any further `goToView` call - valid or not - within the
next `NAVIGATION_COOLDOWN` (500 ms) is dropped whole. -/
theorem goToView_cooldown_starts_before_validation
    (sys : Sys) (now : ℤ) (indexOrId : ℤ ⊕ String) (now2 : ℤ) (t2 : ℤ ⊕ String)
    (h : NAVIGATION_COOLDOWN ≤ now - sys.lastNavigationTime)
    (h2 : now2 - now < NAVIGATION_COOLDOWN) :
    (goToView sys now indexOrId).lastNavigationTime = now ∧
    (goToViewNoOpTarget sys.state indexOrId →
      (goToView sys now indexOrId).state = sys.state) ∧
    goToView (goToView sys now indexOrId) now2 t2 = goToView sys now indexOrId := by
  have hc : ¬ now - sys.lastNavigationTime < NAVIGATION_COOLDOWN := not_lt.mpr h
  refine ⟨?_, ?_, ?_⟩
  · simp only [goToView, if_neg hc]
  · intro hno
    simp only [goToView, if_neg hc]
    simp only [goToViewState]
    split
    · rfl
    · split
      · rfl
      · rename_i hb he
        rcases hno with hn | hn | hn
        · exact absurd (Or.inl hn) hb
        · exact absurd (Or.inr hn) hb
        · exact absurd hn he
  · simp only [goToView, if_neg hc]
    rw [if_pos]
    exact h2

/-- C10 (witness).  On the fresh system at time 1000 ms, `goToView(5)` is
out of bounds yet starts a cooldown window: `lastNavigationTime` becomes
1000, the state is unchanged, and a `goToView(0)` at 1300 ms is dropped. -/
theorem goToView_cooldown_starts_before_validation_witness :
    (goToView initSys 1000 (Sum.inl 5)).lastNavigationTime = 1000 ∧
    (goToViewNoOpTarget initSys.state (Sum.inl 5) →
      (goToView initSys 1000 (Sum.inl 5)).state = initSys.state) ∧
    goToView (goToView initSys 1000 (Sum.inl 5)) 1300 (Sum.inl 0) =
      goToView initSys 1000 (Sum.inl 5) :=
  goToView_cooldown_starts_before_validation initSys 1000 (Sum.inl 5) 1300 (Sum.inl 0)
    (by decide) (by decide)

theorem jsFindIndex?_some {p : ViewState → Bool} :
    ∀ {l : List ViewState} {i : ℕ}, jsFindIndex? p l = some i →
      i < l.length ∧ ∃ v, l[i]? = some v ∧ p v = true := by
  intro l
  induction l with
  | nil => intro i h; simp [jsFindIndex?] at h
  | cons a as ih =>
    intro i h
    simp only [jsFindIndex?] at h
    by_cases hp : p a
    · rw [if_pos hp] at h
      cases h
      exact ⟨by simp, a, by simp, hp⟩
    · rw [if_neg hp] at h
      rcases Option.map_eq_some'.mp h with ⟨j, hj, rfl⟩
      rcases ih hj with ⟨hlt, v, hv, hpv⟩
      exact ⟨by simpa using Nat.succ_lt_succ hlt, v, by simpa using hv, hpv⟩

theorem jsFindIndex?_set_self {p : ViewState → Bool} {v' : ViewState}
    (hp : p v' = true) :
    ∀ {l : List ViewState} {i : ℕ}, jsFindIndex? p l = some i →
      jsFindIndex? p (l.set i v') = some i := by
  intro l
  induction l with
  | nil => intro i h; simp [jsFindIndex?] at h
  | cons a as ih =>
    intro i h
    simp only [jsFindIndex?] at h
    by_cases hpa : p a
    · rw [if_pos hpa] at h
      cases h
      simp [jsFindIndex?, hp]
    · rw [if_neg hpa] at h
      rcases Option.map_eq_some'.mp h with ⟨j, hj, rfl⟩
      simp only [List.set_cons_succ, jsFindIndex?, if_neg hpa, ih hj, Option.map_some']

theorem length_reindexFrom (i : ℕ) (l : List ViewState) :
    (reindexFrom i l).length = l.length := by
  induction l generalizing i with
  | nil => rfl
  | cons a as ih => simp [reindexFrom, ih]

theorem mem_reindexFrom {v : ViewState} :
    ∀ {i : ℕ} {l : List ViewState}, v ∈ reindexFrom i l →
      ∃ w ∈ l, v.progress = w.progress ∧ v.explicitLock = w.explicitLock ∧
        v.navigation = w.navigation := by
  intro i l
  induction l generalizing i with
  | nil => intro h; simp [reindexFrom] at h
  | cons a as ih =>
    intro h
    simp only [reindexFrom, List.mem_cons] at h
    rcases h with h | h
    · exact ⟨a, by simp, by simp [h]⟩
    · rcases ih h with ⟨w, hw, hp⟩
      exact ⟨w, by simp [hw], hp⟩

theorem length_mapIdxGo (f : ℕ → ViewState → ViewState) :
    ∀ (i : ℕ) (l : List ViewState), (mapIdxGo f i l).length = l.length := by
  intro i l
  induction l generalizing i with
  | nil => rfl
  | cons a as ih => simp [mapIdxGo, ih]

theorem mem_mapIdxGo {f : ℕ → ViewState → ViewState} {v : ViewState} :
    ∀ {i : ℕ} {l : List ViewState}, v ∈ mapIdxGo f i l →
      ∃ j w, w ∈ l ∧ v = f j w := by
  intro i l
  induction l generalizing i with
  | nil => intro h; simp [mapIdxGo] at h
  | cons a as ih =>
    intro h
    simp only [mapIdxGo, List.mem_cons] at h
    rcases h with h | h
    · exact ⟨i, a, by simp, h⟩
    · rcases ih h with ⟨j, w, hw, hv⟩
      exact ⟨j, w, by simp [hw], hv⟩

theorem storeInv_initialState : StoreInv initialState := by
  refine ⟨rfl, fun _ => rfl, fun h => absurd rfl h, ?_, ?_⟩ <;> intro v hv <;>
    simp [initialState] at hv

theorem storeInv_initStore {s : ScrollSystemState} (h : StoreInv s) :
    StoreInv (initStore s) := by
  unfold initStore
  split
  · rename_i hlen
    exact ⟨h.total_eq, fun _ => rfl, fun _ => hlen, h.progress_bounds, h.lock_nav⟩
  · exact h

theorem storeInv_registerView (c : ViewConfig) {s : ScrollSystemState}
    (h : StoreInv s) : StoreInv (registerView c s) := by
  simp only [registerView]
  split
  · exact h
  · refine ⟨by simp, ?_, ?_, ?_, ?_⟩
    · intro hc; simp at hc
    · intro _
      rcases eq_or_ne s.views [] with he | he
      · simp [he, h.active_empty he]
      · have := h.active_lt he
        simp only [List.length_append, List.length_singleton]
        omega
    · intro v hv
      rcases List.mem_append.mp hv with hv | hv
      · exact h.progress_bounds v hv
      · rcases List.mem_singleton.mp hv with rfl
        norm_num
    · intro v hv l hl
      rcases List.mem_append.mp hv with hv | hv
      · exact h.lock_nav v hv l hl
      · rcases List.mem_singleton.mp hv with rfl
        simp at hl

theorem clampToNat_lt {a n : ℕ} (hn : 0 < n) :
    (max 0 (min (a : ℤ) ((n : ℤ) - 1))).toNat < n := by
  have h1 : min ((a : ℤ)) ((n : ℤ) - 1) ≤ (n : ℤ) - 1 := min_le_right _ _
  have h2 : (0 : ℤ) ≤ max 0 (min (a : ℤ) ((n : ℤ) - 1)) := le_max_left _ _
  have h3 : max (0 : ℤ) (min (a : ℤ) ((n : ℤ) - 1)) ≤ (n : ℤ) - 1 :=
    max_le (by omega) h1
  omega

theorem clampToNat_zero (a : ℕ) :
    (max 0 (min (a : ℤ) ((0 : ℤ) - 1))).toNat = 0 := by
  have h1 : min ((a : ℤ)) ((0 : ℤ) - 1) ≤ (0 : ℤ) - 1 := min_le_right _ _
  rw [max_eq_left (by omega)]
  rfl

theorem storeInv_unregisterView (id : String) {s : ScrollSystemState}
    (h : StoreInv s) : StoreInv (unregisterView id s) := by
  simp only [unregisterView]
  refine ⟨by simp, ?_, ?_, ?_, ?_⟩
  · dsimp only
    intro hc
    rw [hc]
    simp only [List.length_nil, Nat.cast_zero]
    exact clampToNat_zero s.activeIndex
  · dsimp only
    intro hc
    exact clampToNat_lt (List.length_pos.mpr hc)
  · dsimp only
    intro v hv
    rcases mem_reindexFrom hv with ⟨w, hw, hp, _, _⟩
    rw [hp]
    exact h.progress_bounds w (List.mem_filter.mp hw).1
  · dsimp only
    intro v hv l hl
    rcases mem_reindexFrom hv with ⟨w, hw, _, hel, hnav⟩
    rw [hnav]
    exact h.lock_nav w (List.mem_filter.mp hw).1 l (hel ▸ hl)

theorem storeInv_updateViewMetrics (id : String) (m : ViewMetrics)
    {s : ScrollSystemState} (h : StoreInv s) : StoreInv (updateViewMetrics s id m) := by
  simp only [updateViewMetrics]
  split
  · exact h
  · rename_i i hfind
    split
    · exact h
    · rename_i view hget
      split
      · exact h
      · have hi : i < s.views.length := (jsFindIndex?_some hfind).1
        have hne : s.views ≠ [] := by
          intro hc; rw [hc] at hi; simp at hi
        refine ⟨by simpa using h.total_eq, ?_, ?_, ?_, ?_⟩
        · intro hc
          have hlen0 : s.views.length = 0 := by simpa using congrArg List.length hc
          omega
        · intro _
          simpa using h.active_lt hne
        · intro v hv
          rcases List.mem_or_eq_of_mem_set hv with hv | rfl
          · exact h.progress_bounds v hv
          · exact ⟨calculateProgress_nonneg m, calculateProgress_le_one m⟩
        · intro v hv l hl
          rcases List.mem_or_eq_of_mem_set hv with hv | rfl
          · exact h.lock_nav v hv l hl
          · simp only at hl ⊢
            rw [hl]
            rfl

theorem storeInv_goToViewState (t : ℤ ⊕ String) {s : ScrollSystemState}
    (h : StoreInv s) : StoreInv (goToViewState s t) := by
  simp only [goToViewState]
  split
  · exact h
  · split
    · exact h
    · rename_i hb _
      have hrange : 0 ≤ resolveTarget s t ∧ resolveTarget s t < (s.totalViews : ℤ) := by
        push_neg at hb
        exact hb
      have hlen : (resolveTarget s t).toNat < s.views.length := by
        rw [← h.total_eq]
        omega
      refine ⟨by simp [length_mapIdxGo, h.total_eq], ?_, ?_, ?_, ?_⟩
      · intro hc
        have hlen0 : s.views.length = 0 := by
          simpa [length_mapIdxGo] using congrArg List.length hc
        omega
      · intro _
        simpa [length_mapIdxGo] using hlen
      · intro v hv
        rcases mem_mapIdxGo hv with ⟨j, w, hw, rfl⟩
        exact h.progress_bounds w hw
      · intro v hv l hl
        rcases mem_mapIdxGo hv with ⟨j, w, hw, rfl⟩
        exact h.lock_nav w hw l hl

theorem storeInv_goToView (now : ℤ) (t : ℤ ⊕ String) {sys : Sys}
    (h : StoreInv sys.state) : StoreInv (goToView sys now t).state := by
  unfold goToView
  split
  · exact h
  · exact storeInv_goToViewState t h

theorem storeInv_set_field {s : ScrollSystemState} {i : ℕ} {v' : ViewState}
    (h : StoreInv s) (hi : i < s.views.length)
    (hp : 0 ≤ v'.progress ∧ v'.progress ≤ 1)
    (hl : ∀ l, v'.explicitLock = some l → v'.navigation = l) :
    StoreInv { s with views := s.views.set i v' } := by
  have hne : s.views ≠ [] := by
    intro hc; rw [hc] at hi; simp at hi
  refine ⟨by simpa using h.total_eq, ?_, ?_, ?_, ?_⟩
  · dsimp only
    intro hc
    have hlen0 : s.views.length = 0 := by simpa using congrArg List.length hc
    omega
  · dsimp only
    intro _
    simpa using h.active_lt hne
  · dsimp only
    intro v hv
    rcases List.mem_or_eq_of_mem_set hv with hv | rfl
    · exact h.progress_bounds v hv
    · exact hp
  · dsimp only
    intro v hv l hvl
    rcases List.mem_or_eq_of_mem_set hv with hv | rfl
    · exact h.lock_nav v hv l hvl
    · exact hl l hvl

theorem storeInv_setViewExplicitLock (id : String) (lock : Option NavigationState)
    {s : ScrollSystemState} (h : StoreInv s) : StoreInv (setViewExplicitLock s id lock) := by
  simp only [setViewExplicitLock]
  split
  · exact h
  · rename_i i hfind
    split
    · exact h
    · rename_i view hget
      refine storeInv_set_field h (jsFindIndex?_some hfind).1 ?_ ?_
      · have hmem : view ∈ s.views := by
          rcases List.getElem?_eq_some.mp hget with ⟨hlt, hg⟩
          exact hg ▸ List.getElem_mem hlt
        exact h.progress_bounds view hmem
      · intro l hvl
        simp only at hvl ⊢
        rw [hvl]
        rfl

theorem storeInv_setViewPreloaded (id : String) (b : Bool)
    {s : ScrollSystemState} (h : StoreInv s) : StoreInv (setViewPreloaded s id b) := by
  simp only [setViewPreloaded]
  split
  · exact h
  · rename_i i hfind
    split
    · exact h
    · rename_i view hget
      have hmem : view ∈ s.views := by
        rcases List.getElem?_eq_some.mp hget with ⟨hlt, hg⟩
        exact hg ▸ List.getElem_mem hlt
      exact storeInv_set_field h (jsFindIndex?_some hfind).1
        (h.progress_bounds view hmem) (fun l hvl => h.lock_nav view hmem l hvl)

theorem storeInv_setActiveSnapPoint (id : String) (sp : Option String)
    {s : ScrollSystemState} (h : StoreInv s) : StoreInv (setActiveSnapPoint s id sp) := by
  simp only [setActiveSnapPoint]
  split
  · exact h
  · rename_i i hfind
    split
    · exact h
    · rename_i view hget
      have hmem : view ∈ s.views := by
        rcases List.getElem?_eq_some.mp hget with ⟨hlt, hg⟩
        exact hg ▸ List.getElem_mem hlt
      exact storeInv_set_field h (jsFindIndex?_some hfind).1
        (h.progress_bounds view hmem) (fun l hvl => h.lock_nav view hmem l hvl)

theorem storeInv_flags {s : ScrollSystemState} (h : StoreInv s)
    (views' : List ViewState) (hv : views' = s.views)
    (ai' : ℕ) (hai : ai' = s.activeIndex) (tv' : ℕ) (htv : tv' = s.totalViews) :
    ∀ (aid : Option String) (ii it ig idg : Bool) (gp : ℚ) (ias iap ise : Bool)
      (lnd : Option UserDirection),
      StoreInv { views := views', activeIndex := ai', activeId := aid,
                 totalViews := tv', isInitialized := ii, isTransitioning := it,
                 isGlobalLocked := ig, isDragging := idg, globalProgress := gp,
                 isAutoScrolling := ias, isAutoScrollPaused := iap,
                 infiniteScrollEnabled := ise, lastNavigationDirection := lnd } := by
  intro aid ii it ig idg gp ias iap ise lnd
  subst hv hai htv
  exact ⟨h.total_eq, h.active_empty, h.active_lt, h.progress_bounds, h.lock_nav⟩

theorem processIntention_snd_cases (sys : Sys) (now : ℤ) (i : UserIntention) :
    (processIntention sys now i).2 = sys ∨
    ∃ t, (processIntention sys now i).2 = goToView sys now t := by
  simp only [processIntention]
  repeat' split
  all_goals first
    | exact Or.inl rfl
    | exact Or.inr ⟨_, rfl⟩

/-- Every reachable system state satisfies the store invariant. -/
theorem storeInv_reachable {sys : Sys} (h : Reachable sys) : StoreInv sys.state := by
  induction h with
  | init => exact storeInv_initialState
  | @step s0 op hr ih =>
    cases op with
    | initStore => exact storeInv_initStore ih
    | registerView c => exact storeInv_registerView c ih
    | unregisterView id => exact storeInv_unregisterView id ih
    | updateViewMetrics id m => exact storeInv_updateViewMetrics id m ih
    | processIntention now i =>
      rcases processIntention_snd_cases s0 now i with hc | ⟨t, hc⟩
      · show StoreInv (processIntention s0 now i).2.state
        rw [hc]; exact ih
      · show StoreInv (processIntention s0 now i).2.state
        rw [hc]; exact storeInv_goToView now t ih
    | goToNext now => exact storeInv_goToView now _ ih
    | goToPrevious now => exact storeInv_goToView now _ ih
    | goToView now t => exact storeInv_goToView now t ih
    | setViewExplicitLock id l => exact storeInv_setViewExplicitLock id l ih
    | setGlobalLock b => exact storeInv_flags ih _ rfl _ rfl _ rfl _ _ _ _ _ _ _ _ _ _
    | setDragging b => exact storeInv_flags ih _ rfl _ rfl _ rfl _ _ _ _ _ _ _ _ _ _
    | startTransition => exact storeInv_flags ih _ rfl _ rfl _ rfl _ _ _ _ _ _ _ _ _ _
    | endTransition => exact storeInv_flags ih _ rfl _ rfl _ rfl _ _ _ _ _ _ _ _ _ _
    | setAutoScrolling b => exact storeInv_flags ih _ rfl _ rfl _ rfl _ _ _ _ _ _ _ _ _ _
    | setAutoScrollPaused b => exact storeInv_flags ih _ rfl _ rfl _ rfl _ _ _ _ _ _ _ _ _ _
    | setInfiniteScrollEnabled b => exact storeInv_flags ih _ rfl _ rfl _ rfl _ _ _ _ _ _ _ _ _ _
    | setViewPreloaded id b => exact storeInv_setViewPreloaded id b ih
    | setActiveSnapPoint id sp => exact storeInv_setActiveSnapPoint id sp ih
    | resetNavigationCooldown => exact ih

/-- C5.  In every reachable state, whenever a view's `explicitLock` is
non-null its `navigation` field equals the lock, regardless of computed
capability and progress: every operation that writes `navigation`
(`updateViewMetrics`, `setViewExplicitLock`) re-runs the evaluator, whose
first rule returns the explicit lock verbatim. -/
theorem explicitLock_dominates_navigation :
    ∀ (sys : Sys), Reachable sys →
      ∀ v ∈ sys.state.views, ∀ l, v.explicitLock = some l → v.navigation = l :=
  fun _ h => (storeInv_reachable h).lock_nav

/-- C5 (witness).  The locked view of `lockedViewSys` is reachable, its
`explicitLock` is `locked`, and the invariant theorem yields
`navigation = locked` for it. -/
theorem explicitLock_dominates_navigation_witness :
    lockedView ∈ lockedViewSys.state.views ∧
    lockedView.explicitLock = some NavigationState.locked ∧
    lockedView.navigation = NavigationState.locked :=
  ⟨by decide, by decide,
    explicitLock_dominates_navigation lockedViewSys
      (Reachable.step _ (Reachable.step _ Reachable.init))
      lockedView (by decide) NavigationState.locked (by decide)⟩

/-- C9.  `updateViewMetrics` is idempotent: repeating a call with the same
metrics returns the state of the first call unchanged (the recomputed
capability/progress/navigation triple matches what the first call stored,
so the epsilon short-circuit fires and the same state object is returned). -/
theorem updateViewMetrics_idempotent :
    ∀ (s : ScrollSystemState) (id : String) (m : ViewMetrics),
      updateViewMetrics (updateViewMetrics s id m) id m = updateViewMetrics s id m := by
  intro s id m
  rcases hfind : jsFindIndex? (fun v => v.id = id) s.views with _ | i
  · have h1 : updateViewMetrics s id m = s := by
      simp only [updateViewMetrics, hfind]
    rw [h1, h1]
  · rcases hget : s.views[i]? with _ | view
    · have h1 : updateViewMetrics s id m = s := by
        simp only [updateViewMetrics, hfind, hget]
      rw [h1, h1]
    · by_cases hcond : view.capability = calculateCapability m ∧
        |view.progress - calculateProgress m| < 1 / 10000 ∧
        view.navigation = evaluateStateMachine (calculateCapability m)
          (calculateProgress m) view.type view.explicitLock
      · have h1 : updateViewMetrics s id m = s := by
          simp only [updateViewMetrics, hfind, hget]
          rw [if_pos hcond]
        rw [h1, h1]
      · have hviews : (updateViewMetrics s id m).views =
            s.views.set i (appliedView view m) := by
          simp only [updateViewMetrics, hfind, hget]
          rw [if_neg hcond]
          rfl
        have hid : decide ((appliedView view m).id = id) = true := by
          rcases (jsFindIndex?_some hfind).2 with ⟨w, hw, hpw⟩
          rw [hget] at hw
          cases hw
          simpa [appliedView] using hpw
        have hfind1 : jsFindIndex? (fun v => v.id = id)
            (updateViewMetrics s id m).views = some i := by
          rw [hviews]
          exact jsFindIndex?_set_self hid hfind
        have hget1 : (updateViewMetrics s id m).views[i]? =
            some (appliedView view m) := by
          rw [hviews]
          exact List.getElem?_set_eq_of_lt _ (jsFindIndex?_some hfind).1
        set s1 := updateViewMetrics s id m with hs1
        simp only [updateViewMetrics, hfind1, hget1]
        rw [if_pos]
        refine ⟨rfl, ?_, rfl⟩
        have hp : (appliedView view m).progress = calculateProgress m := rfl
        rw [hp, sub_self, abs_zero]
        norm_num

theorem updateViewMetrics_changed {s : ScrollSystemState} {id : String} {m : ViewMetrics}
    (hne : updateViewMetrics s id m ≠ s) :
    ∃ i view,
      jsFindIndex? (fun v => v.id = id) s.views = some i ∧
      s.views[i]? = some view ∧
      (updateViewMetrics s id m).views = s.views.set i (appliedView view m) ∧
      (updateViewMetrics s id m).activeIndex = s.activeIndex ∧
      (updateViewMetrics s id m).totalViews = s.totalViews ∧
      (updateViewMetrics s id m).globalProgress =
        ((s.activeIndex : ℚ) +
          (match (s.views.set i (appliedView view m))[s.activeIndex]? with
           | some av => av.progress
           | Option.none => 0)) / (s.totalViews : ℚ) := by
  rcases hfind : jsFindIndex? (fun v => v.id = id) s.views with _ | i
  · exact absurd (by simp only [updateViewMetrics, hfind]) hne
  · rcases hget : s.views[i]? with _ | view
    · exact absurd (by simp only [updateViewMetrics, hfind, hget]) hne
    · by_cases hcond : view.capability = calculateCapability m ∧
        |view.progress - calculateProgress m| < 1 / 10000 ∧
        view.navigation = evaluateStateMachine (calculateCapability m)
          (calculateProgress m) view.type view.explicitLock
      · refine absurd ?_ hne
        simp only [updateViewMetrics, hfind, hget]
        rw [if_pos hcond]
      · refine ⟨i, view, rfl, hget, ?_, ?_, ?_, ?_⟩ <;>
          · simp only [updateViewMetrics, hfind, hget]
            rw [if_neg hcond]
            try rfl

/-- C6 (amended).  `globalProgress` is recomputed only by
`updateViewMetrics`: immediately after any state-changing
`updateViewMetrics` call on a reachable state, `globalProgress` equals
`(activeIndex + activeView.progress) / totalViews` and lies in `[0,1]`.
(Operations that move `activeIndex` - `goToView`, `processIntention` - or
change `totalViews` leave `globalProgress` stale, see the counterexample.) -/
theorem globalProgress_formula_after_updateViewMetrics :
    ∀ (sys : Sys), Reachable sys → ∀ (id : String) (m : ViewMetrics),
      updateViewMetrics sys.state id m ≠ sys.state →
      (updateViewMetrics sys.state id m).globalProgress =
        globalProgressFormula (updateViewMetrics sys.state id m) ∧
      0 ≤ (updateViewMetrics sys.state id m).globalProgress ∧
      (updateViewMetrics sys.state id m).globalProgress ≤ 1 := by
  intro sys hr id m hne
  obtain ⟨i, view, hfind, hget, hviews, hai, htv, hgp⟩ := updateViewMetrics_changed hne
  have hinv := storeInv_reachable hr
  have hi : i < sys.state.views.length := (jsFindIndex?_some hfind).1
  have hvne : sys.state.views ≠ [] := by
    intro hc; rw [hc] at hi; simp at hi
  have haiL : sys.state.activeIndex < sys.state.views.length := hinv.active_lt hvne
  rcases hx : (sys.state.views.set i (appliedView view m))[sys.state.activeIndex]?
    with _ | w
  · rw [List.getElem?_eq_none_iff, List.length_set] at hx
    omega
  · have hwb : 0 ≤ w.progress ∧ w.progress ≤ 1 := by
      have hmem : w ∈ sys.state.views.set i (appliedView view m) := by
        rcases List.getElem?_eq_some.mp hx with ⟨hlt, hg⟩
        exact hg ▸ List.getElem_mem hlt
      rcases List.mem_or_eq_of_mem_set hmem with hm | rfl
      · exact hinv.progress_bounds w hm
      · exact ⟨calculateProgress_nonneg m, calculateProgress_le_one m⟩
    have hgp' : (updateViewMetrics sys.state id m).globalProgress =
        ((sys.state.activeIndex : ℚ) + w.progress) / (sys.state.totalViews : ℚ) := by
      rw [hgp, hx]
    have hform : globalProgressFormula (updateViewMetrics sys.state id m) =
        ((sys.state.activeIndex : ℚ) + w.progress) / (sys.state.totalViews : ℚ) := by
      unfold globalProgressFormula
      rw [hai, htv, hviews, hx]
    have htot := hinv.total_eq
    have hnpos : (0 : ℚ) < (sys.state.totalViews : ℚ) := by
      have : 0 < sys.state.totalViews := by omega
      exact_mod_cast this
    have hle : (sys.state.activeIndex : ℚ) + w.progress ≤ (sys.state.totalViews : ℚ) := by
      have h1 : sys.state.activeIndex + 1 ≤ sys.state.totalViews := by omega
      have h2 : ((sys.state.activeIndex : ℚ) + 1) ≤ (sys.state.totalViews : ℚ) := by
        exact_mod_cast h1
      linarith [hwb.2]
    refine ⟨by rw [hgp', hform], ?_, ?_⟩
    · rw [hgp']
      exact div_nonneg (add_nonneg (Nat.cast_nonneg _) hwb.1) (le_of_lt hnpos)
    · rw [hgp']
      exact (div_le_one hnpos).mpr hle

theorem c6_calcProgress : calculateProgress c6Metrics = 1 := by
  simp only [calculateProgress, c6Metrics]
  norm_num

theorem c6_update_changes :
    updateViewMetrics c6Base.state "doc" c6Metrics ≠ c6Base.state := by
  have hbase : c6Base.state = c6Snapshot := by decide
  rw [hbase]
  have hfind : jsFindIndex? (fun v => v.id = "doc") c6Snapshot.views = some 0 := by decide
  have hget : c6Snapshot.views[0]? = some c6View := by decide
  have hcond : ¬(c6View.capability = calculateCapability c6Metrics ∧
      |c6View.progress - calculateProgress c6Metrics| < 1 / 10000 ∧
      c6View.navigation = evaluateStateMachine (calculateCapability c6Metrics)
        (calculateProgress c6Metrics) c6View.type c6View.explicitLock) := by
    rw [c6_calcProgress]
    intro h
    have habs := h.2.1
    rw [show c6View.progress = 0 from rfl] at habs
    norm_num at habs
  have hviews : (updateViewMetrics c6Snapshot "doc" c6Metrics).views =
      c6Snapshot.views.set 0 (appliedView c6View c6Metrics) := by
    simp only [updateViewMetrics, hfind, hget]
    rw [if_neg hcond]
    rfl
  intro heq
  have h0 : (c6Snapshot.views.set 0 (appliedView c6View c6Metrics))[0]? =
      c6Snapshot.views[0]? := by
    rw [← hviews, heq]
  rw [List.getElem?_set_eq_of_lt _ (by decide : 0 < c6Snapshot.views.length), hget] at h0
  have h2 := congrArg ViewState.progress (Option.some.inj h0)
  have h3 : (appliedView c6View c6Metrics).progress = calculateProgress c6Metrics := rfl
  rw [h3, c6_calcProgress, show c6View.progress = 0 from rfl] at h2
  norm_num at h2

/-- C6 (witness).  Updating the registered view of `c6Base` with
non-overflowing metrics changes the state (progress jumps from 0 to 1),
and the amended theorem applies: the new `globalProgress` satisfies the
formula and lies in `[0,1]`. -/
theorem globalProgress_formula_after_updateViewMetrics_witness :
    updateViewMetrics c6Base.state "doc" c6Metrics ≠ c6Base.state ∧
    ((updateViewMetrics c6Base.state "doc" c6Metrics).globalProgress =
      globalProgressFormula (updateViewMetrics c6Base.state "doc" c6Metrics) ∧
     0 ≤ (updateViewMetrics c6Base.state "doc" c6Metrics).globalProgress ∧
     (updateViewMetrics c6Base.state "doc" c6Metrics).globalProgress ≤ 1) :=
  ⟨c6_update_changes,
    globalProgress_formula_after_updateViewMetrics c6Base
      (Reachable.step _ Reachable.init) "doc" c6Metrics c6_update_changes⟩

/-- C7.  For an `up` navigate intention on the active view: (a) an
internally scrollable view not at its top (`scrollTop > 1`) always rejects
the retreat; (b) for any non-`controlled` view type, `explicitLock =
locked` always rejects it; (c) a `controlled` view that passed the
at-top check, away from the first index and with the preconditions
satisfied, is rejected exactly when its `allowGoBack` config field is
`false` - its `explicitLock`, even `locked`, is never consulted. -/
theorem up_intention_retreat_rules :
    ∀ (sys : Sys) (now : ℤ) (i : UserIntention) (v : ViewState),
      i.type = UserIntentionType.navigate → i.direction = UserDirection.up →
      sys.state.views[sys.state.activeIndex]? = some v →
      ((v.capability = ScrollCapability.internal ∧ 1 < v.metrics.scrollTop →
          (processIntention sys now i).1 = false) ∧
       (v.type ≠ ViewType.controlled →
          v.explicitLock = some NavigationState.locked →
          (processIntention sys now i).1 = false) ∧
       (v.type = ViewType.controlled →
          sys.state.isTransitioning = false → sys.state.isGlobalLocked = false →
          (v.capability = ScrollCapability.internal → v.metrics.scrollTop ≤ 1) →
          0 < sys.state.activeIndex →
          ((processIntention sys now i).1 = false ↔
            v.config.allowGoBack = some false))) := by
  intro sys now i v ht hd hv
  obtain ⟨it, idir, istr, iori⟩ := i
  simp only at ht hd
  subst ht
  subst hd
  simp only [processIntention, hv]
  refine ⟨?_, ?_, ?_⟩
  · rintro ⟨hcap, htop⟩
    split
    · rfl
    · rw [if_pos ⟨hcap, not_le.mpr htop⟩]
  · intro hnctl hlock
    split
    · rfl
    · split
      · rfl
      · rcases hvt : v.type with _ | _ | _ | _
        all_goals
          first
            | exact absurd hvt hnctl
            | dsimp only
  · intro hctl htr hgl htop hpos
    rw [if_neg (by simp [htr, hgl])]
    rw [if_neg (fun hc => absurd (htop hc.1) hc.2)]
    rw [hctl]
    dsimp only
    by_cases hgb : v.config.allowGoBack = some false
    · rw [if_pos hgb]
      simp [hgb]
    · rw [if_neg hgb]
      rw [if_neg (by omega : ¬ (sys.state.activeIndex : ℤ) ≤ 0)]
      simp [hgb]

/-- C7 (witness).  In Scenario D the retreat rules apply concretely: the
`up` intention on the `allowGoBack = false` controlled view is rejected
even though the view is not internally scrollable. -/
theorem up_intention_retreat_rules_witness :
    (processIntention scenarioDSys 2000 upNavIntention).1 = false ∧
    scenarioDView.config.allowGoBack = some false :=
  ⟨((up_intention_retreat_rules scenarioDSys 2000 upNavIntention scenarioDView
      rfl rfl (by decide)).2.2 (by decide) (by decide) (by decide) (by decide)
      (by decide)).mpr (by decide),
    by decide⟩

end ScrollSystem

